import Mathlib

/-
Shallow embedding of the GraphRAGEval maintenance scripts
(create_thread_relationships.py and create_indexes.py).

The two scripts run Cypher queries against a Neo4j store.  We embed the
store-visible state (RedditContent nodes, REPLIES_TO / BELONGS_TO_THREAD
edge sets, named vector indexes) and the exact semantics of the queries:
string operations (STARTS WITH, substring) are modelled at the character
level, MERGE as create-if-absent on an ordered-pair edge list, and
CREATE VECTOR INDEX ... IF NOT EXISTS as insert-if-name-absent.
A session.run call that raises is modelled by a query-outcome oracle;
a failing query applies no writes (Neo4j rolls the transaction back) and
the Python wrapper catches the exception and returns False.
-/

/-- Cypher `s STARTS WITH p`: character-level string prefix test. -/
def startsWithStr (s pre : String) : Bool := pre.data.isPrefixOf s.data

/-- Cypher `substring(s, n)`: the string with its first `n` characters dropped. -/
def substringFrom (s : String) (n : Nat) : String := ⟨s.data.drop n⟩

/-- A `RedditContent` node with the properties the two queries read:
`id`, `parent_id` and `link_id` (absent property = `none` = Cypher NULL). -/
structure ContentNode where
  id : String
  parent_id : Option String
  link_id : Option String
deriving DecidableEq

/-- WHERE clause of the REPLIES_TO query:
`child.parent_id IS NOT NULL AND child.parent_id <> child.id AND child.parent_id <> ""`. -/
def replyWhere (child : ContentNode) : Bool :=
  match child.parent_id with
  | none => false
  | some p => p != child.id && p != ""

/-- WHERE clause of the BELONGS_TO_THREAD query:
`comment.link_id IS NOT NULL AND comment.link_id <> comment.id AND comment.link_id <> ""`. -/
def threadWhere (comment : ContentNode) : Bool :=
  match comment.link_id with
  | none => false
  | some l => l != comment.id && l != ""

/-- The CASE expression of the REPLIES_TO query: strip a leading `t1_` or
`t3_` (3 characters) from `parent_id`, otherwise leave it unchanged. -/
def processParentId (p : String) : String :=
  if startsWithStr p "t1_" then substringFrom p 3
  else if startsWithStr p "t3_" then substringFrom p 3
  else p

/-- The CASE expression of the BELONGS_TO_THREAD query: strip only a
leading `t3_` from `link_id`, otherwise leave it unchanged. -/
def processLinkId (l : String) : String :=
  if startsWithStr l "t3_" then substringFrom l 3
  else l

/-- The second MATCH of either query: all nodes whose `id` starts with
`fragment + '_'` and whose `id` differs from the node being resolved. -/
def resolveCandidates (nodes : List ContentNode) (selfId fragment : String) :
    List ContentNode :=
  nodes.filter (fun p => startsWithStr p.id (fragment ++ "_") && p.id != selfId)

/-- All (child.id, parent.id) rows produced by the REPLIES_TO query. -/
def replyPairs (nodes : List ContentNode) : List (String × String) :=
  (nodes.filter replyWhere).flatMap (fun child =>
    (resolveCandidates nodes child.id
        (processParentId (child.parent_id.getD ""))).map
      (fun parent => (child.id, parent.id)))

/-- All (comment.id, thread.id) rows produced by the BELONGS_TO_THREAD query. -/
def threadPairs (nodes : List ContentNode) : List (String × String) :=
  (nodes.filter threadWhere).flatMap (fun comment =>
    (resolveCandidates nodes comment.id
        (processLinkId (comment.link_id.getD ""))).map
      (fun thread => (comment.id, thread.id)))

/-- Cypher `MERGE (a)-[:K]->(b)`: add the ordered pair unless an edge of
that kind already links the pair. -/
def mergeEdge (es : List (String × String)) (e : String × String) :
    List (String × String) :=
  if e ∈ es then es else es ++ [e]

/-- Store state visible to `create_thread_relationships`: the node
population and the two edge relations (as ordered-pair lists). -/
structure GraphState where
  nodes : List ContentNode
  replyEdges : List (String × String)
  threadEdges : List (String × String)
deriving DecidableEq

/-- Outcome of one `session.run` call: it either succeeds or raises. -/
inductive QueryOutcome
  | ok
  | err
deriving DecidableEq

/-- `create_thread_relationships()` from create_thread_relationships.py.
Runs the REPLIES_TO query, then the BELONGS_TO_THREAD query, inside one
try/except: a raising query applies no writes, the exception is caught at
the function boundary and the function returns False; otherwise it returns
True.  The two reported counts are `count(child)` / `count(comment)` of
the respective query; a pass that never ran reports nothing (`none`). -/
def create_thread_relationships (g : GraphState) (o1 o2 : QueryOutcome) :
    GraphState × Bool × Option Nat × Option Nat :=
  match o1 with
  | .err => (g, false, none, none)
  | .ok =>
    let rPairs := replyPairs g.nodes
    let g1 : GraphState := { g with replyEdges := rPairs.foldl mergeEdge g.replyEdges }
    match o2 with
    | .err => (g1, false, some rPairs.length, none)
    | .ok =>
      let tPairs := threadPairs g1.nodes
      let g2 : GraphState := { g1 with threadEdges := tPairs.foldl mergeEdge g1.threadEdges }
      (g2, true, some rPairs.length, some tPairs.length)

/-- One failure-free reconstruction run, keeping only the store state. -/
def runOnce (g : GraphState) : GraphState :=
  (create_thread_relationships g .ok .ok).1

/-- Configuration of one vector index: node label, indexed property,
`vector.dimensions` and `vector.similarity_function`. -/
structure IndexConfig where
  label : String
  propertyName : String
  dimensions : Nat
  similarity_function : String
deriving DecidableEq

/-- The store's persisted index catalog: name ↦ configuration. -/
abbrev IndexState := List (String × IndexConfig)

/-- What one `CREATE VECTOR INDEX ... IF NOT EXISTS` statement did. -/
inductive CreateIndexResult
  | created
  | skippedExisting
deriving DecidableEq

/-- Cypher `CREATE VECTOR INDEX name IF NOT EXISTS ... OPTIONS {...}`:
if an index of that name exists the statement is a silent no-op (the
existing configuration, matching or not, is kept); otherwise the index is
added with the requested configuration. -/
def createVectorIndexIfNotExists (s : IndexState) (name : String)
    (cfg : IndexConfig) : IndexState × CreateIndexResult :=
  if s.any (fun p => p.1 == name) then (s, .skippedExisting)
  else (s ++ [(name, cfg)], .created)

/-- Configuration of `reddit_content_embeddings` in create_indexes.py. -/
def redditContentCfg : IndexConfig :=
  ⟨"RedditContent", "content_embedding", 1024, "cosine"⟩

/-- Configuration of `topic_embeddings` in create_indexes.py. -/
def topicCfg : IndexConfig :=
  ⟨"Topic", "embedding", 1024, "cosine"⟩

/-- `create_vector_indexes()` from create_indexes.py: issue the two
CREATE VECTOR INDEX statements inside one try/except; a raising statement
aborts the rest, is caught, and the function returns False, else True. -/
def create_vector_indexes (s : IndexState) (o1 o2 : QueryOutcome) :
    IndexState × Bool :=
  match o1 with
  | .err => (s, false)
  | .ok =>
    let s1 := (createVectorIndexIfNotExists s "reddit_content_embeddings" redditContentCfg).1
    match o2 with
    | .err => (s1, false)
    | .ok =>
      let s2 := (createVectorIndexIfNotExists s1 "topic_embeddings" topicCfg).1
      (s2, true)

/-- The three-node input graph of the end-to-end scenario. -/
def scenarioNodes : List ContentNode :=
  [⟨"t3_100", none, none⟩,
   ⟨"t1_100_1", some "t3_100", some "t3_100"⟩,
   ⟨"t1_100_2", some "t1_100_1", some "t3_100"⟩]

/-- Two nodes separating `abc_1` from `abcd_1` for the boundary test. -/
def abcNodes : List ContentNode :=
  [⟨"abc_1", none, none⟩, ⟨"abcd_1", none, none⟩]

/-- A graph on which both passes have work to do: `x_1` resolves its
parent and thread reference `abc` to the node `abc_1`. -/
def workNodes : List ContentNode :=
  [⟨"abc_1", none, none⟩, ⟨"x_1", some "abc", some "abc"⟩]

/-- A graph whose second node references its own id as parent and thread. -/
def selfRefNodes : List ContentNode :=
  [⟨"x_1", some "abc", some "abc"⟩, ⟨"abc_1", some "abc_1", some "abc_1"⟩]

/-- An index catalog holding `topic_embeddings` with a configuration that
differs from the one create_indexes.py requests. -/
def conflictCfg : IndexConfig := ⟨"Topic", "embedding", 512, "euclidean"⟩

def conflictState : IndexState := [("topic_embeddings", conflictCfg)]

theorem mk_data (s : String) : (⟨s.data⟩ : String) = s := by
  cases s
  rfl

theorem startsWithStr_append (p s : String) : startsWithStr (p ++ s) p = true := by
  simp [startsWithStr, String.data_append, List.isPrefixOf_iff_prefix]

theorem substringFrom_append (p s : String) :
    substringFrom (p ++ s) p.data.length = s := by
  simp [substringFrom, String.data_append, List.drop_left, mk_data]

theorem mem_foldl_mergeEdge (ps : List (String × String)) (es : List (String × String))
    (e : String × String) : e ∈ ps.foldl mergeEdge es ↔ e ∈ es ∨ e ∈ ps := by
  induction ps generalizing es with
  | nil => simp
  | cons p ps ih =>
    simp only [List.foldl_cons, ih, mergeEdge]
    by_cases hp : p ∈ es
    · simp [hp]
      constructor
      · rintro (h | h)
        · exact Or.inl h
        · exact Or.inr (Or.inr h)
      · rintro (h | h | h)
        · exact Or.inl h
        · exact Or.inl (h ▸ hp)
        · exact Or.inr h
    · simp [hp, List.mem_append, or_assoc]

theorem nodup_foldl_mergeEdge (ps : List (String × String)) (es : List (String × String))
    (h : es.Nodup) : (ps.foldl mergeEdge es).Nodup := by
  induction ps generalizing es with
  | nil => exact h
  | cons p ps ih =>
    simp only [List.foldl_cons, mergeEdge]
    by_cases hp : p ∈ es
    · simp only [hp, if_pos]
      exact ih es h
    · simp only [hp, if_neg, not_false_iff]
      refine ih _ ?_
      simp [List.nodup_append, h, hp]

theorem foldl_mergeEdge_eq_of_subset (ps : List (String × String))
    (es : List (String × String)) (h : ∀ p ∈ ps, p ∈ es) :
    ps.foldl mergeEdge es = es := by
  induction ps with
  | nil => rfl
  | cons p ps ih =>
    simp only [List.foldl_cons, mergeEdge, if_pos (h p (by simp))]
    exact ih (fun q hq => h q (by simp [hq]))

theorem mem_resolveCandidates_iff (nodes : List ContentNode) (selfId fragment : String)
    (n : ContentNode) :
    n ∈ resolveCandidates nodes selfId fragment ↔
      n ∈ nodes ∧ (∃ t : List Char, n.id.data = (fragment ++ "_").data ++ t) ∧
        n.id ≠ selfId := by
  simp only [resolveCandidates, List.mem_filter, Bool.and_eq_true, bne_iff_ne,
    startsWithStr, List.isPrefixOf_iff_prefix, List.IsPrefix, ne_eq, and_assoc]
  constructor
  · rintro ⟨hn, ⟨t, ht⟩, hne⟩
    exact ⟨hn, ⟨t, ht.symm⟩, hne⟩
  · rintro ⟨hn, ⟨t, ht⟩, hne⟩
    exact ⟨hn, ⟨t, ht.symm⟩, hne⟩

theorem replyPairs_ne (nodes : List ContentNode) (e : String × String)
    (h : e ∈ replyPairs nodes) : e.1 ≠ e.2 := by
  simp only [replyPairs, List.mem_flatMap, List.mem_map, List.mem_filter] at h
  obtain ⟨c, _, p, hp, rfl⟩ := h
  have := (mem_resolveCandidates_iff _ _ _ _).1 hp
  exact fun hEq => this.2.2 hEq.symm

theorem threadPairs_ne (nodes : List ContentNode) (e : String × String)
    (h : e ∈ threadPairs nodes) : e.1 ≠ e.2 := by
  simp only [threadPairs, List.mem_flatMap, List.mem_map, List.mem_filter] at h
  obtain ⟨c, _, p, hp, rfl⟩ := h
  have := (mem_resolveCandidates_iff _ _ _ _).1 hp
  exact fun hEq => this.2.2 hEq.symm

theorem runOnce_nodes (g : GraphState) : (runOnce g).nodes = g.nodes := rfl

theorem runOnce_replyEdges (g : GraphState) :
    (runOnce g).replyEdges = (replyPairs g.nodes).foldl mergeEdge g.replyEdges := rfl

theorem runOnce_threadEdges (g : GraphState) :
    (runOnce g).threadEdges = (threadPairs g.nodes).foldl mergeEdge g.threadEdges := rfl

theorem runOnce_idem (g : GraphState) : runOnce (runOnce g) = runOnce g := by
  have hr : ∀ p ∈ replyPairs (runOnce g).nodes, p ∈ (runOnce g).replyEdges := by
    intro p hp
    rw [runOnce_nodes] at hp
    rw [runOnce_replyEdges, mem_foldl_mergeEdge]
    exact Or.inr hp
  have ht : ∀ p ∈ threadPairs (runOnce g).nodes, p ∈ (runOnce g).threadEdges := by
    intro p hp
    rw [runOnce_nodes] at hp
    rw [runOnce_threadEdges, mem_foldl_mergeEdge]
    exact Or.inr hp
  cases g with
  | mk ns rs ts =>
    show GraphState.mk _ _ _ = GraphState.mk _ _ _
    congr 1
    · exact foldl_mergeEdge_eq_of_subset _ _ hr
    · exact foldl_mergeEdge_eq_of_subset _ _ ht

theorem runOnce_nodup (g : GraphState) (hr : g.replyEdges.Nodup)
    (ht : g.threadEdges.Nodup) :
    (runOnce g).replyEdges.Nodup ∧ (runOnce g).threadEdges.Nodup :=
  ⟨nodup_foldl_mergeEdge _ _ hr, nodup_foldl_mergeEdge _ _ ht⟩

theorem iterate_nodup (g : GraphState) (n : Nat) (hr : g.replyEdges.Nodup)
    (ht : g.threadEdges.Nodup) :
    (runOnce^[n] g).replyEdges.Nodup ∧ (runOnce^[n] g).threadEdges.Nodup := by
  induction n with
  | zero => exact ⟨hr, ht⟩
  | succ n ih =>
    rw [Function.iterate_succ_apply']
    exact runOnce_nodup _ ih.1 ih.2

/-- C3: edge materialization is idempotent — a second reconstruction run on
the unchanged graph is the identity on the store state (zero additional
edges), and when the initial edge lists hold each ordered pair at most
once, they still do after any number of reconstruction runs. -/
theorem reconstruction_idempotent (g : GraphState) (n : Nat)
    (hr : g.replyEdges.Nodup) (ht : g.threadEdges.Nodup) :
    runOnce (runOnce g) = runOnce g ∧
      (runOnce^[n] g).replyEdges.Nodup ∧ (runOnce^[n] g).threadEdges.Nodup :=
  ⟨runOnce_idem g, iterate_nodup g n hr ht⟩

/-- C3 witness at a concrete two-node graph and two runs. -/
theorem reconstruction_idempotent_witness :
    (([] : List (String × String)).Nodup ∧ ([] : List (String × String)).Nodup) ∧
      (runOnce (runOnce ⟨workNodes, [], []⟩) = runOnce ⟨workNodes, [], []⟩ ∧
        (runOnce^[2] (⟨workNodes, [], []⟩ : GraphState)).replyEdges.Nodup ∧
        (runOnce^[2] (⟨workNodes, [], []⟩ : GraphState)).threadEdges.Nodup) :=
  ⟨⟨List.nodup_nil, List.nodup_nil⟩,
    reconstruction_idempotent ⟨workNodes, [], []⟩ 2 List.nodup_nil List.nodup_nil⟩

theorem runOnce_no_self (g : GraphState)
    (hr : ∀ e ∈ g.replyEdges, e.1 ≠ e.2) (ht : ∀ e ∈ g.threadEdges, e.1 ≠ e.2) :
    (∀ e ∈ (runOnce g).replyEdges, e.1 ≠ e.2) ∧
      (∀ e ∈ (runOnce g).threadEdges, e.1 ≠ e.2) := by
  constructor
  · intro e he
    rw [runOnce_replyEdges, mem_foldl_mergeEdge] at he
    rcases he with h | h
    · exact hr e h
    · exact replyPairs_ne _ e h
  · intro e he
    rw [runOnce_threadEdges, mem_foldl_mergeEdge] at he
    rcases he with h | h
    · exact ht e h
    · exact threadPairs_ne _ e h

/-- C4: no reconstruction run ever creates a self-loop — starting from any
graph whose reply/thread edge lists hold no self-loop (in particular the
edge-free graph), after any number of runs no REPLIES_TO and no
BELONGS_TO_THREAD edge has source equal to target, even for nodes whose
parent_id or link_id equals their own id. -/
theorem no_self_loops (g : GraphState) (n : Nat)
    (hr : ∀ e ∈ g.replyEdges, e.1 ≠ e.2) (ht : ∀ e ∈ g.threadEdges, e.1 ≠ e.2) :
    (∀ e ∈ (runOnce^[n] g).replyEdges, e.1 ≠ e.2) ∧
      (∀ e ∈ (runOnce^[n] g).threadEdges, e.1 ≠ e.2) := by
  induction n with
  | zero => exact ⟨hr, ht⟩
  | succ n ih =>
    rw [Function.iterate_succ_apply']
    exact runOnce_no_self _ ih.1 ih.2

/-- C4 witness: a graph whose second node cites its own id as parent and
thread reference, run twice from the edge-free state. -/
theorem no_self_loops_witness :
    ((∀ e ∈ ([] : List (String × String)), e.1 ≠ e.2) ∧
        (∀ e ∈ ([] : List (String × String)), e.1 ≠ e.2)) ∧
      ((∀ e ∈ (runOnce^[2] (⟨selfRefNodes, [], []⟩ : GraphState)).replyEdges, e.1 ≠ e.2) ∧
        (∀ e ∈ (runOnce^[2] (⟨selfRefNodes, [], []⟩ : GraphState)).threadEdges, e.1 ≠ e.2)) :=
  ⟨⟨by simp, by simp⟩,
    no_self_loops ⟨selfRefNodes, [], []⟩ 2 (by simp) (by simp)⟩

theorem not_startsWith_t1_of_t3 (s : String) :
    startsWithStr ("t3_" ++ s) "t1_" = false := by
  have h3 : ("t3_" : String).data = ['t', '3', '_'] := rfl
  have h1 : ("t1_" : String).data = ['t', '1', '_'] := rfl
  simp [startsWithStr, String.data_append, h3, h1, List.isPrefixOf]

theorem not_startsWith_t3_of_t1 (s : String) :
    startsWithStr ("t1_" ++ s) "t3_" = false := by
  have h3 : ("t3_" : String).data = ['t', '3', '_'] := rfl
  have h1 : ("t1_" : String).data = ['t', '1', '_'] := rfl
  simp [startsWithStr, String.data_append, h3, h1, List.isPrefixOf]

theorem substringFrom_three (p s : String) (hp : p.data.length = 3) :
    substringFrom (p ++ s) 3 = s := by
  rw [← hp]
  exact substringFrom_append p s

/-- C5: the reply pass strips exactly one leading `t1_` or `t3_` from the
reference and otherwise leaves it unchanged, while the thread pass strips
only a leading `t3_` and in particular leaves a `t1_`-reference intact. -/
theorem normalization_strips (r s : String)
    (h1 : startsWithStr r "t1_" = false) (h3 : startsWithStr r "t3_" = false) :
    processParentId ("t1_" ++ s) = s ∧
    processParentId ("t3_" ++ s) = s ∧
    processParentId r = r ∧
    processLinkId ("t3_" ++ s) = s ∧
    processLinkId ("t1_" ++ s) = "t1_" ++ s ∧
    processLinkId r = r := by
  refine ⟨?_, ?_, ?_, ?_, ?_, ?_⟩
  · rw [processParentId, if_pos (startsWithStr_append "t1_" s)]
    exact substringFrom_three _ _ rfl
  · rw [processParentId, if_neg, if_pos (startsWithStr_append "t3_" s)]
    · exact substringFrom_three _ _ rfl
    · simp [not_startsWith_t1_of_t3]
  · rw [processParentId, if_neg (by simp [h1]), if_neg (by simp [h3])]
  · rw [processLinkId, if_pos (startsWithStr_append "t3_" s)]
    exact substringFrom_three _ _ rfl
  · rw [processLinkId, if_neg (by simp [not_startsWith_t3_of_t1])]
  · rw [processLinkId, if_neg (by simp [h3])]

/-- C5 witness: the reference `xyz` carries no known type marker, so
`t1_xyz` and `t3_xyz` both normalize to `xyz` in the reply pass, `xyz`
stays unchanged, and the thread pass strips only the `t3_` form. -/
theorem normalization_strips_witness :
    (startsWithStr "xyz" "t1_" = false ∧ startsWithStr "xyz" "t3_" = false) ∧
      (processParentId ("t1_" ++ "xyz") = "xyz" ∧
        processParentId ("t3_" ++ "xyz") = "xyz" ∧
        processParentId "xyz" = "xyz" ∧
        processLinkId ("t3_" ++ "xyz") = "xyz" ∧
        processLinkId ("t1_" ++ "xyz") = "t1_" ++ "xyz" ∧
        processLinkId "xyz" = "xyz") :=
  ⟨⟨by decide, by decide⟩, normalization_strips "xyz" "xyz" (by decide) (by decide)⟩

/-- C2: candidate resolution returns exactly the nodes of the population
whose id extends the normalized fragment followed by the `_` separator and
whose id differs from the node being resolved; concretely the fragment
`abc` resolves to `abc_1` and not to `abcd_1`. -/
theorem candidate_resolution (nodes : List ContentNode) (selfId fragment : String)
    (n : ContentNode) :
    (n ∈ resolveCandidates nodes selfId fragment ↔
      n ∈ nodes ∧ (∃ t : List Char, n.id.data = (fragment ++ "_").data ++ t) ∧
        n.id ≠ selfId) ∧
    resolveCandidates abcNodes "z_9" "abc" = [⟨"abc_1", none, none⟩] :=
  ⟨mem_resolveCandidates_iff nodes selfId fragment n, by decide⟩

/-- C10: each pass reports `count` of the produced rows — one per
(filtered source node, resolved candidate) pair, whether or not MERGE
created a new edge — so a second run on the unchanged graph reports the
same counts as the first, and a node with several candidates contributes
once per candidate. -/
theorem reported_counts (g : GraphState) :
    (create_thread_relationships g .ok .ok).2.2.1 = some (replyPairs g.nodes).length ∧
    (create_thread_relationships g .ok .ok).2.2.2 = some (threadPairs g.nodes).length ∧
    (replyPairs g.nodes).length =
      ((g.nodes.filter replyWhere).map (fun c =>
        (resolveCandidates g.nodes c.id (processParentId (c.parent_id.getD ""))).length)).sum ∧
    (threadPairs g.nodes).length =
      ((g.nodes.filter threadWhere).map (fun c =>
        (resolveCandidates g.nodes c.id (processLinkId (c.link_id.getD ""))).length)).sum ∧
    (create_thread_relationships (runOnce g) .ok .ok).2.2.1 =
      (create_thread_relationships g .ok .ok).2.2.1 ∧
    (create_thread_relationships (runOnce g) .ok .ok).2.2.2 =
      (create_thread_relationships g .ok .ok).2.2.2 := by
  refine ⟨rfl, rfl, ?_, ?_, rfl, rfl⟩
  · simp [replyPairs, List.length_flatMap, Function.comp_def, List.length_map]
  · simp [threadPairs, List.length_flatMap, Function.comp_def, List.length_map]

/-- C1 counterexample: on the three-node scenario graph the reply query
reports a count different from 2 and creates neither the claimed reply
edge `t1_100_1 → t3_100` nor the claimed thread edge — no node id starts
with a stripped reference followed by `_`. -/
theorem scenario_counterexample :
    (create_thread_relationships ⟨scenarioNodes, [], []⟩ .ok .ok).2.2.1 ≠ some 2 ∧
    ("t1_100_1", "t3_100") ∉
      (create_thread_relationships ⟨scenarioNodes, [], []⟩ .ok .ok).1.replyEdges ∧
    ("t1_100_1", "t3_100") ∉
      (create_thread_relationships ⟨scenarioNodes, [], []⟩ .ok .ok).1.threadEdges := by
  decide

/-- C1 amended: on the three-node scenario graph the reconstruction
creates no reply edge and no thread edge and reports
reply_edges_created = 0 and thread_edges_created = 0. -/
theorem scenario_result :
    create_thread_relationships ⟨scenarioNodes, [], []⟩ .ok .ok =
      (⟨scenarioNodes, [], []⟩, true, some 0, some 0) := by
  decide

/-- C6 counterexample: on a graph where the thread pass has work to do, a
failure of the first (reply) query leaves the graph untouched — the thread
pass is never executed — and the run reports failure. -/
theorem failure_aborts_counterexample :
    threadPairs workNodes ≠ [] ∧
    create_thread_relationships ⟨workNodes, [], []⟩ .err .ok =
      (⟨workNodes, [], []⟩, false, none, none) := by
  decide

/-- C6 amended: a query failure aborts the whole run, not just one
node/pair — a failing first query leaves the graph unchanged and skips the
thread pass entirely, a failing second query leaves the thread edges
unchanged, and in both cases the caught exception makes the function
return False. -/
theorem failure_aborts (g : GraphState) (o : QueryOutcome) :
    create_thread_relationships g .err o = (g, false, none, none) ∧
    (create_thread_relationships g .ok .err).2.1 = false ∧
    (create_thread_relationships g .ok .err).1.threadEdges = g.threadEdges :=
  ⟨rfl, rfl, rfl⟩

/-- C8: either maintenance operation returns True exactly when every store
call it issues succeeds, and returns False (rather than letting the
raised store exception escape — the model functions are total) otherwise. -/
theorem outcome_reporting (g : GraphState) (s : IndexState)
    (o1 o2 p1 p2 : QueryOutcome) :
    ((create_thread_relationships g o1 o2).2.1 = true ↔ o1 = .ok ∧ o2 = .ok) ∧
    ((create_vector_indexes s p1 p2).2 = true ↔ p1 = .ok ∧ p2 = .ok) := by
  cases o1 <;> cases o2 <;> cases p1 <;> cases p2 <;>
    simp [create_thread_relationships, create_vector_indexes]

theorem create_noop (s : IndexState) (name : String) (cfg : IndexConfig)
    (h : s.any (fun p => p.1 == name) = true) :
    createVectorIndexIfNotExists s name cfg = (s, .skippedExisting) := by
  simp [createVectorIndexIfNotExists, h]

theorem any_after_create_same (s : IndexState) (name : String) (cfg : IndexConfig) :
    ((createVectorIndexIfNotExists s name cfg).1.any (fun p => p.1 == name)) = true := by
  by_cases h : s.any (fun p => p.1 == name) = true
  · simp [createVectorIndexIfNotExists, h]
  · simp [createVectorIndexIfNotExists, h, List.any_append]

theorem any_mono_create (s : IndexState) (name name' : String) (cfg : IndexConfig)
    (h : s.any (fun p => p.1 == name') = true) :
    ((createVectorIndexIfNotExists s name cfg).1.any (fun p => p.1 == name')) = true := by
  by_cases hn : s.any (fun p => p.1 == name) = true
  · simp [createVectorIndexIfNotExists, hn, h]
  · simp [createVectorIndexIfNotExists, hn, List.any_append, h]

theorem create_vector_indexes_ok (s : IndexState) :
    create_vector_indexes s .ok .ok =
      ((createVectorIndexIfNotExists
          (createVectorIndexIfNotExists s "reddit_content_embeddings" redditContentCfg).1
          "topic_embeddings" topicCfg).1, true) := rfl

/-- C9: index creation declares exactly the two named vector indexes of
create_indexes.py — `reddit_content_embeddings` over
RedditContent.content_embedding and `topic_embeddings` over
Topic.embedding, both 1024-dimensional cosine — and, being
create-if-not-exists, a repeated call on any catalog is a no-op. -/
theorem vector_indexes_decl (s : IndexState) :
    (create_vector_indexes [] .ok .ok).1 =
      [("reddit_content_embeddings", ⟨"RedditContent", "content_embedding", 1024, "cosine"⟩),
       ("topic_embeddings", ⟨"Topic", "embedding", 1024, "cosine"⟩)] ∧
    (create_vector_indexes (create_vector_indexes s .ok .ok).1 .ok .ok).1 =
      (create_vector_indexes s .ok .ok).1 := by
  constructor
  · decide
  · rw [create_vector_indexes_ok s, create_vector_indexes_ok]
    have hr1 : ((createVectorIndexIfNotExists s "reddit_content_embeddings"
        redditContentCfg).1.any (fun p => p.1 == "reddit_content_embeddings")) = true :=
      any_after_create_same _ _ _
    have hr2 := any_mono_create
      (createVectorIndexIfNotExists s "reddit_content_embeddings" redditContentCfg).1
      "topic_embeddings" "reddit_content_embeddings" topicCfg hr1
    have ht2 := any_after_create_same
      (createVectorIndexIfNotExists s "reddit_content_embeddings" redditContentCfg).1
      "topic_embeddings" topicCfg
    rw [create_noop _ _ _ hr2, create_noop _ _ _ ht2]

/-- C7 counterexample: with `topic_embeddings` already present under a
different configuration (512 dimensions, euclidean), requesting the
1024/cosine configuration returns exactly the same silent
skipped-existing outcome, with the catalog unchanged, as re-requesting
the conflicting configuration itself — no named conflict failure exists. -/
theorem index_conflict_counterexample :
    conflictCfg ≠ topicCfg ∧
    createVectorIndexIfNotExists conflictState "topic_embeddings" topicCfg =
      (conflictState, .skippedExisting) ∧
    createVectorIndexIfNotExists conflictState "topic_embeddings" conflictCfg =
      (conflictState, .skippedExisting) := by
  decide

/-- C7 amended: calling index creation twice with identical configuration
leaves exactly one index of each name, but a call on an existing name with
a differing configuration silently no-ops with the same skipped-existing
outcome as the compatible case instead of a named conflict failure. -/
theorem index_create_if_not_exists (s : IndexState) (name : String)
    (c c' : IndexConfig) (h : s.any (fun p => p.1 == name) = true) :
    createVectorIndexIfNotExists s name c = (s, .skippedExisting) ∧
    createVectorIndexIfNotExists s name c = createVectorIndexIfNotExists s name c' ∧
    ((create_vector_indexes (create_vector_indexes [] .ok .ok).1 .ok .ok).1.countP
        (fun p => p.1 == "reddit_content_embeddings") = 1) ∧
    ((create_vector_indexes (create_vector_indexes [] .ok .ok).1 .ok .ok).1.countP
        (fun p => p.1 == "topic_embeddings") = 1) := by
  refine ⟨create_noop s name c h, ?_, by decide, by decide⟩
  rw [create_noop s name c h, create_noop s name c' h]

/-- C7 witness: the conflicting catalog instantiates the amended claim. -/
theorem index_create_if_not_exists_witness :
    (conflictState.any (fun p => p.1 == "topic_embeddings") = true) ∧
      (createVectorIndexIfNotExists conflictState "topic_embeddings" topicCfg =
          (conflictState, .skippedExisting) ∧
        createVectorIndexIfNotExists conflictState "topic_embeddings" topicCfg =
          createVectorIndexIfNotExists conflictState "topic_embeddings" conflictCfg ∧
        ((create_vector_indexes (create_vector_indexes [] .ok .ok).1 .ok .ok).1.countP
            (fun p => p.1 == "reddit_content_embeddings") = 1) ∧
        ((create_vector_indexes (create_vector_indexes [] .ok .ok).1 .ok .ok).1.countP
            (fun p => p.1 == "topic_embeddings") = 1)) :=
  ⟨by decide,
    index_create_if_not_exists conflictState "topic_embeddings" topicCfg conflictCfg
      (by decide)⟩
